import Mathlib

/-!
# Verification of `quran_verse_fetcher.py`

A shallow embedding of the Quranic Verse Fetcher command-line tool.
Pure functions (`InputValidator.validate_input`, `OutputFormatter.format_verse`,
`OutputFormatter.save_to_file`) are translated directly; the effectful
`QuranAPI.get_verse` and `main` are modelled by passing the network (a map from
request URL to response outcome), the file system, and the diagnostic stream
(a list of printed lines) explicitly.  Machine-level details that the tool does
not rely on (Unicode digit classes beyond ASCII in `\d`, arbitrary JSON shapes)
are modelled at the granularity the code actually inspects.
-/

deriving instance DecidableEq for Except

namespace QuranFetcher

/-- The five distinct failure sites of `InputValidator.validate_input`
(each one a `raise ValueError` in the source, distinguished by its message). -/
inductive VError where
  | inputEmpty : VError
  | invalidFormat : VError
  | chapterOutOfRange (chapter : Nat) : VError
  | unknownChapter (chapter : Nat) : VError
  | verseOutOfRange (chapter maxVerses verse : Nat) : VError
  deriving DecidableEq, Repr

/-- Classification per the spec's error taxonomy: a FormatError is a failure of
the input to match the reference shape (the empty-input check and the regex
mismatch). -/
def VError.isFormatError : VError → Bool
  | .inputEmpty => true
  | .invalidFormat => true
  | _ => false

/-- Classification per the spec's error taxonomy: a RangeError is a chapter or
verse bound violation (the two bound checks, and the table-miss branch that
also reports a bad chapter). -/
def VError.isRangeError : VError → Bool
  | .chapterOutOfRange _ => true
  | .unknownChapter _ => true
  | .verseOutOfRange _ _ _ => true
  | _ => false

/-- `InputValidator.CHAPTER_VERSES`: the dict literal mapping each chapter
number to its verse count; `.get` on a missing key yields `none`. -/
def CHAPTER_VERSES : Nat → Option Nat
  | 1 => some 7 | 2 => some 286 | 3 => some 200 | 4 => some 176 | 5 => some 120
  | 6 => some 165 | 7 => some 206 | 8 => some 75 | 9 => some 129 | 10 => some 109
  | 11 => some 123 | 12 => some 111 | 13 => some 43 | 14 => some 52 | 15 => some 99
  | 16 => some 128 | 17 => some 111 | 18 => some 110 | 19 => some 98 | 20 => some 135
  | 21 => some 112 | 22 => some 78 | 23 => some 118 | 24 => some 64 | 25 => some 77
  | 26 => some 227 | 27 => some 93 | 28 => some 88 | 29 => some 69 | 30 => some 60
  | 31 => some 34 | 32 => some 30 | 33 => some 73 | 34 => some 54 | 35 => some 45
  | 36 => some 83 | 37 => some 182 | 38 => some 88 | 39 => some 75 | 40 => some 85
  | 41 => some 54 | 42 => some 53 | 43 => some 89 | 44 => some 59 | 45 => some 37
  | 46 => some 35 | 47 => some 38 | 48 => some 29 | 49 => some 18 | 50 => some 45
  | 51 => some 60 | 52 => some 49 | 53 => some 62 | 54 => some 55 | 55 => some 78
  | 56 => some 96 | 57 => some 29 | 58 => some 22 | 59 => some 24 | 60 => some 13
  | 61 => some 14 | 62 => some 11 | 63 => some 11 | 64 => some 18 | 65 => some 12
  | 66 => some 12 | 67 => some 30 | 68 => some 52 | 69 => some 52 | 70 => some 44
  | 71 => some 28 | 72 => some 28 | 73 => some 20 | 74 => some 56 | 75 => some 40
  | 76 => some 31 | 77 => some 50 | 78 => some 40 | 79 => some 46 | 80 => some 42
  | 81 => some 29 | 82 => some 19 | 83 => some 36 | 84 => some 25 | 85 => some 22
  | 86 => some 17 | 87 => some 19 | 88 => some 26 | 89 => some 30 | 90 => some 20
  | 91 => some 15 | 92 => some 21 | 93 => some 11 | 94 => some 8 | 95 => some 8
  | 96 => some 19 | 97 => some 5 | 98 => some 8 | 99 => some 8 | 100 => some 11
  | 101 => some 11 | 102 => some 8 | 103 => some 3 | 104 => some 9 | 105 => some 5
  | 106 => some 4 | 107 => some 7 | 108 => some 3 | 109 => some 6 | 110 => some 3
  | 111 => some 5 | 112 => some 4 | 113 => some 5 | 114 => some 6
  | _ => none

/-- The verse count of a chapter, defaulting to 0 off the table. -/
def verseCount (chapter : Nat) : Nat := (CHAPTER_VERSES chapter).getD 0

/-- Python's `str.strip()`: remove whitespace from both ends. -/
def pyStrip (l : List Char) : List Char :=
  ((l.dropWhile Char.isWhitespace).reverse.dropWhile Char.isWhitespace).reverse

/-- `int(...)` applied to a matched digit group: decimal value of a digit
string. -/
def digitsToNat (l : List Char) : Nat :=
  l.foldl (fun n c => n * 10 + (c.toNat - ('0').toNat)) 0

/-- The regex `^(\d+):(\d+)$` of `validate_input`, applied to the whole
(already stripped) string: the match succeeds iff the string is a nonempty
digit run, a colon, and a nonempty digit run, and it returns the two groups.
Greedy `(\d+)` takes the maximal leading digit run; since a colon is not a
digit this is exactly `takeWhile`. -/
def matchRefPattern (l : List Char) : Option (List Char × List Char) :=
  let ds := l.takeWhile Char.isDigit
  match l.dropWhile Char.isDigit with
  | ':' :: vs =>
      if ds ≠ [] ∧ vs ≠ [] ∧ vs.all Char.isDigit then some (ds, vs) else none
  | _ => none

/-- `InputValidator.validate_input`: empty-input check, strip + regex match,
chapter bound check, table lookup (with Python's falsy test `if not
max_verses`, which also rejects a zero count), verse bound check. -/
def validate_input (user_input : String) : Except VError (Nat × Nat) :=
  if user_input = "" then .error .inputEmpty
  else
    match matchRefPattern (pyStrip user_input.data) with
    | none => .error .invalidFormat
    | some (cs, vs) =>
      let chapter := digitsToNat cs
      let verse := digitsToNat vs
      if chapter < 1 ∨ 114 < chapter then .error (.chapterOutOfRange chapter)
      else
        match CHAPTER_VERSES chapter with
        | none => .error (.unknownChapter chapter)
        | some max_verses =>
          if max_verses = 0 then .error (.unknownChapter chapter)
          else if verse < 1 ∨ max_verses < verse then
            .error (.verseOutOfRange chapter max_verses verse)
          else .ok (chapter, verse)

/-- Decimal digit characters of `n`, most significant first, with explicit
fuel (`n+1` steps always suffice) so that it evaluates by kernel reduction. -/
def decimalDigitsAux : Nat → Nat → List Char
  | 0, _ => []
  | fuel+1, n =>
    if n < 10 then [Nat.digitChar n]
    else decimalDigitsAux fuel (n / 10) ++ [Nat.digitChar (n % 10)]

/-- Decimal rendering of a natural number (the digits of Python's `str(n)`
and of `f"{n}"`). -/
def decimalDigits (n : Nat) : List Char := decimalDigitsAux (n+1) n

/-- The string `"{c}:{v}"` for a chapter/verse pair rendered in decimal
(the f-string used both to build the validator's test input and the
`verse_key` of `get_verse`). -/
def refString (c v : Nat) : String :=
  String.mk (decimalDigits c ++ ':' :: decimalDigits v)

/-- Decimal string of a natural number (`str(n)` / `f"{n}"`). -/
def natString (n : Nat) : String := String.mk (decimalDigits n)

/-! ## The API client (`QuranAPI`) -/

/-- The fields the program ever reads out of an upstream `data` payload
(the nested `surah` / `edition` sub-dicts are flattened to the two fields
read from them; an absent sub-dict is both fields absent). -/
structure Ayah where
  text : Option String
  surahEnglishName : Option String
  surahName : Option String
  numberInSurah : Option Nat
  juz : Option Nat
  page : Option Nat
  editionEnglishName : Option String
  deriving DecidableEq, Repr

/-- Python truthiness of an optional number: `None` and `0` are falsy. -/
def truthyNat (o : Option Nat) : Bool := o.getD 0 != 0

/-- The dict built by `get_verse` and consumed by `format_verse`
(`verse_data.get('arabic', {})` with an absent-or-empty dict modelled as
`none`). -/
structure VerseData where
  verse_key : Option String
  arabic : Option Ayah
  translation : Option Ayah
  deriving DecidableEq, Repr

/-- Outcome of one `self.session.get(url)` followed by `.json()`, at the
granularity the program inspects: `_make_request` either raises a
`requests.RequestException` (timeout, connection error, HTTP error — all
collapsed by `_make_request` into that one type, with a human-readable
message) or returns a response whose `.json()` either raises a
`json.JSONDecodeError` or yields an envelope with optional `code`,
`status` and `data` fields.  `interrupted` stands for a `KeyboardInterrupt`
delivered during the blocking call; no handler in the client catches it. -/
inductive ApiResult where
  | exn (msg : String)
  | badJson (msg : String)
  | payload (code : Option Nat) (status : Option String) (data : Option Ayah)
  | interrupted
  deriving DecidableEq, Repr

/-- The exceptions `QuranAPI.get_verse` can let escape: `ValueError`
(API error envelope or invalid JSON), a re-raised
`requests.RequestException`, an uncaught `KeyError` from indexing a
missing `data` key, and a propagating `KeyboardInterrupt`. -/
inductive FetchError where
  | valueError (msg : String)
  | requestException (msg : String)
  | keyError (key : String)
  | interrupt
  deriving DecidableEq, Repr

def BASE_URL : String := "http://api.alquran.cloud/v1"

/-- `QuranAPI.TRANSLATIONS`, the fixed key → edition-identifier catalog. -/
def TRANSLATIONS : List (String × String) :=
  [("sahih", "en.sahih"), ("pickthall", "en.pickthall"),
   ("yusufali", "en.yusufali"), ("asad", "en.asad"),
   ("hilali", "en.hilali"), ("shakir", "en.shakir"),
   ("wahiduddin", "en.wahiduddin"), ("clearquran", "en.clearquran")]

/-- `self.TRANSLATIONS.get(translation, translation)`: catalog resolution
with verbatim fallback. -/
def trans_edition (translation : String) : String :=
  (TRANSLATIONS.lookup translation).getD translation

/-- `arabic_url = f"{self.BASE_URL}/ayah/{verse_key}"`. -/
def arabicUrl (chapter verse : Nat) : String :=
  BASE_URL ++ "/ayah/" ++ refString chapter verse

/-- `trans_url = f"{self.BASE_URL}/ayah/{verse_key}/{trans_edition}"`. -/
def transUrl (chapter verse : Nat) (translation : String) : String :=
  BASE_URL ++ "/ayah/" ++ refString chapter verse ++ "/" ++ trans_edition translation

/-- `QuranAPI.get_verse`, with the network passed explicitly as a map from
request URL to outcome.  Returns the verse dict or the escaping exception,
paired with the lines printed to `sys.stderr` (the warning side channel).
Control flow mirrors the source: an arabic-request `RequestException` is
re-raised with a `Network error` prefix; a `JSONDecodeError` from either
response is converted by the outer handler to a `ValueError` (the inner
`try` around the translation request catches only `RequestException`);
a non-200 translation envelope and a translation `RequestException` are
downgraded to a warning. -/
def get_verse (net : String → ApiResult) (chapter verse : Nat)
    (translation : Option String) : Except FetchError VerseData × List String :=
  let verse_key := refString chapter verse
  match net (arabicUrl chapter verse) with
  | .interrupted => (.error .interrupt, [])
  | .exn msg =>
      (.error (.requestException ("Network error while fetching verse: " ++ msg)), [])
  | .badJson msg =>
      (.error (.valueError ("Invalid JSON response from API: " ++ msg)), [])
  | .payload code status data =>
    if code ≠ some 200 then
      (.error (.valueError ("API Error: " ++ status.getD "Unknown error")), [])
    else
      match data with
      | none => (.error (.keyError "data"), [])
      | some arabicData =>
        match translation with
        | none => (.ok ⟨some verse_key, some arabicData, none⟩, [])
        | some tkey =>
          match net (transUrl chapter verse tkey) with
          | .interrupted => (.error .interrupt, [])
          | .exn msg =>
              (.ok ⟨some verse_key, some arabicData, none⟩,
               ["Warning: Translation request failed: " ++ msg])
          | .badJson msg =>
              (.error (.valueError ("Invalid JSON response from API: " ++ msg)), [])
          | .payload tcode _ tdata =>
            if tcode = some 200 then
              match tdata with
              | some transData => (.ok ⟨some verse_key, some arabicData, some transData⟩, [])
              | none => (.error (.keyError "data"), [])
            else
              (.ok ⟨some verse_key, some arabicData, none⟩,
               ["Warning: Could not fetch translation " ++ "'" ++ tkey ++
                "'" ++ ". Using Arabic only."])

/-! ## The formatter (`OutputFormatter`) -/

/-- `"=" * 60`. -/
def eqBar : String := String.mk (List.replicate 60 '=')

/-- The header line `f"Verse: {verse_key} | Surah: {surah_name} ({formatted_surah_arabic})"`. -/
def headerLine (vd : VerseData) : String :=
  let verse_key := vd.verse_key.getD "Unknown"
  let surah_name := (vd.arabic.bind Ayah.surahEnglishName).getD "Unknown"
  let surah_arabic := (vd.arabic.bind Ayah.surahName).getD ""
  let formatted_surah_arabic :=
    if surah_arabic = "" then "" else "‏" ++ surah_arabic
  "Verse: " ++ (verse_key ++ (" | Surah: " ++ (surah_name ++ (" (" ++
    (formatted_surah_arabic ++ ")")))))

/-- The Arabic-text block: present iff the mode includes Arabic and the
`arabic` dict is truthy; RTL mark prepended to the text; the
verse-within-chapter line only when `numberInSurah` is truthy. -/
def arabic_section (vd : VerseData) (output_format : String) : List String :=
  match vd.arabic with
  | some a =>
    if output_format = "arabic" ∨ output_format = "both" then
      ["\n Arabic Text:", "‏" ++ a.text.getD "No Arabic text available"] ++
      (if truthyNat a.numberInSurah then
        ["   └─ Verse " ++ (natString (a.numberInSurah.getD 0) ++ " in Surah")]
      else [])
    else []
  | none => []

/-- The translation block: present iff the mode includes the translation and
`translation` is truthy. -/
def translation_section (vd : VerseData) (output_format : String) : List String :=
  match vd.translation with
  | some t =>
    if output_format = "translation" ∨ output_format = "both" then
      ["\n English Translation:", t.text.getD "No translation available",
       "   └─ Translation: " ++ t.editionEnglishName.getD "Unknown"]
    else []
  | none => []

/-- The trailing location block: juz and page lines, each only when truthy,
under a `Location:` heading emitted when either is. -/
def location_section (vd : VerseData) : List String :=
  match vd.arabic with
  | some a =>
    if truthyNat a.juz ∨ truthyNat a.page then
      ["\n Location:"] ++
      (if truthyNat a.juz then ["   └─ Juz (Para): " ++ natString (a.juz.getD 0)] else []) ++
      (if truthyNat a.page then ["   └─ Page: " ++ natString (a.page.getD 0)] else [])
    else []
  | none => []

/-- `OutputFormatter.format_verse` as its `lines` list, in the order the
source appends them. -/
def format_verse_lines (vd : VerseData) (output_format : String) : List String :=
  [eqBar, headerLine vd, eqBar] ++
  arabic_section vd output_format ++
  translation_section vd output_format ++
  location_section vd ++
  ["\n" ++ eqBar]

/-- `OutputFormatter.format_verse`: `"\n".join(lines)`. -/
def format_verse (vd : VerseData) (output_format : String) : String :=
  String.intercalate "\n" (format_verse_lines vd output_format)

/-- Outcome of `open(filename, 'w', encoding='utf-8').write(content)`. -/
inductive WriteOutcome where
  | ok
  | ioError (msg : String)
  deriving DecidableEq, Repr

/-- `OutputFormatter.save_to_file`, with the file system passed as a map
from filename and content to outcome; returns the boolean result paired
with the lines printed to `sys.stderr`. -/
def save_to_file (fs : String → String → WriteOutcome)
    (content filename : String) : Bool × List String :=
  match fs filename content with
  | .ok => (true, [])
  | .ioError msg =>
      (false, ["Error saving to file " ++ "'" ++ filename ++ "'" ++ ": " ++ msg])

/-! ## The one-shot CLI (`main`) -/

/-- The message text of each `ValueError` raised by `validate_input`
(interpolated numbers rendered in decimal). -/
def VError.message : VError → String
  | .inputEmpty => "Input cannot be empty"
  | .invalidFormat =>
      "Invalid format. Please use " ++ "'" ++ "chapter:verse" ++ "'" ++
      " format (e.g., " ++ "'" ++ "2:255" ++ "'" ++ ", " ++ "'" ++ "3:10" ++ "'" ++ ")"
  | .chapterOutOfRange c =>
      "Chapter number must be between 1 and 114. Got: " ++ natString c
  | .unknownChapter c => "Unknown chapter: " ++ natString c
  | .verseOutOfRange c maxV v =>
      "Chapter " ++ natString c ++ " has " ++ natString maxV ++
      " verses. Verse number must be between 1 and " ++ natString maxV ++
      ". Got: " ++ natString v

/-- The argparse namespace of a single invocation: the optional positional
`verse`, `-t` (default `"sahih"`), `-f` (default `"both"`), `-o`,
`--list-translations` and `-i`. -/
structure Args where
  verse : Option String
  translation : String
  format : String
  output : Option String
  list_translations : Bool
  interactive : Bool
  deriving DecidableEq, Repr

/-- Exit status of one `main` invocation, with the lines printed to
`sys.stderr`. -/
structure MainResult where
  exitCode : Nat
  stderr : List String
  deriving DecidableEq, Repr

/-- The diagnostic line of `parser.error` (argparse prints a usage line plus
this error line to stderr and exits with status 2). -/
def usageErrorLine : String :=
  "error: the following arguments are required: verse"

/-- `translation = args.translation if args.format in ['translation', 'both']
else None`: the edition key passed to `get_verse` in one-shot mode. -/
def args_translation (args : Args) : Option String :=
  if args.format = "translation" ∨ args.format = "both"
  then some args.translation else none

/-- `main`, modelled over the already-parsed argument namespace, an explicit
network and file system.  `run_interactive_mode` catches every error it can
encounter internally (`KeyboardInterrupt` breaks the loop, any other
exception is reported and the loop continues), so the interactive branch
returns normally and the process exits 0; it prints to stdout only.
`parser.error` — reached when no verse, no `--list-translations` and no
`-i` was given; `if not args.verse` is Python's falsy test, so it fires
both on an absent verse argument and on an empty-string one — exits with
status 2 per argparse semantics. -/
def main (net : String → ApiResult) (fs : String → String → WriteOutcome)
    (args : Args) : MainResult :=
  if args.list_translations then ⟨0, []⟩
  else if args.interactive then ⟨0, []⟩
  else
    match args.verse with
    | none => ⟨2, [usageErrorLine]⟩
    | some vstr =>
      if vstr = "" then ⟨2, [usageErrorLine]⟩
      else
      match validate_input vstr with
      | .error e =>
          ⟨1, ["Input Error: " ++ e.message, "Use --help for usage information."]⟩
      | .ok (chapter, verse) =>
        let fetching := "Fetching verse " ++ refString chapter verse ++ "..."
        match get_verse net chapter verse (args_translation args) with
        | (.error (.valueError msg), warns) =>
            ⟨1, fetching :: warns ++
              ["Input Error: " ++ msg, "Use --help for usage information."]⟩
        | (.error (.requestException msg), warns) =>
            ⟨1, fetching :: warns ++
              ["Network Error: " ++ msg,
               "Please check your internet connection and try again."]⟩
        | (.error (.keyError k), warns) =>
            ⟨1, fetching :: warns ++
              ["Unexpected Error: " ++ "'" ++ k ++ "'",
               "Please try again or report this issue."]⟩
        | (.error .interrupt, warns) =>
            ⟨1, fetching :: warns ++ ["\nOperation cancelled by user."]⟩
        | (.ok vd, warns) =>
          let formatted := format_verse vd args.format
          match args.output with
          | some path =>
            let saved := save_to_file fs formatted path
            if saved.1 then
              ⟨0, fetching :: warns ++ saved.2 ++
                ["Verse saved to " ++ "'" ++ path ++ "'"]⟩
            else ⟨1, fetching :: warns ++ saved.2⟩
          | none => ⟨0, fetching :: warns⟩

/-! ## Concrete sample data for witnesses and counterexamples -/

/-- A sample Arabic payload shaped like the API `data` for reference 1:1. -/
def sampleAyah : Ayah :=
  ⟨some "Bismillahir rahmanir raheem", some "Al-Faatiha",
   some "Al-Fatiha", some 1, some 1, some 1, none⟩

/-- A sample translation payload. -/
def sampleTransAyah : Ayah :=
  ⟨some "In the name of Allah, the Entirely Merciful, the Especially Merciful.",
   none, none, some 1, none, none, some "Saheeh International"⟩

/-- Network: Arabic request for 1:1 succeeds; every other URL returns
malformed JSON. -/
def netBadTransJson : String → ApiResult := fun url =>
  if url = arabicUrl 1 1 then .payload (some 200) (some "OK") (some sampleAyah)
  else .badJson "Expecting value: line 1 column 1 (char 0)"

/-- Network: Arabic request for 1:1 succeeds; every other URL returns a 404
envelope. -/
def netTrans404 : String → ApiResult := fun url =>
  if url = arabicUrl 1 1 then .payload (some 200) (some "OK") (some sampleAyah)
  else .payload (some 404) (some "Not Found") none

/-- Network: Arabic request for 1:1 succeeds, and so does the request for
the non-catalog edition identifier `custom.edition` at 1:1. -/
def netCustomEdition : String → ApiResult := fun url =>
  if url = arabicUrl 1 1 then .payload (some 200) (some "OK") (some sampleAyah)
  else if url = BASE_URL ++ "/ayah/" ++ refString 1 1 ++ "/" ++ "custom.edition" then
    .payload (some 200) (some "OK") (some sampleTransAyah)
  else .exn "Connection error. Please check your internet connection."

/-- Network where every request succeeds with the sample payloads. -/
def netAllOk : String → ApiResult := fun url =>
  if url = arabicUrl 1 1 then .payload (some 200) (some "OK") (some sampleAyah)
  else .payload (some 200) (some "OK") (some sampleTransAyah)

/-- Network where every request fails at the transport level. -/
def netDown : String → ApiResult := fun _ =>
  .exn "Connection error. Please check your internet connection."

/-- File system on which every write succeeds. -/
def fsOk : String → String → WriteOutcome := fun _ _ => .ok

/-- File system on which every write fails. -/
def fsFull : String → String → WriteOutcome := fun _ _ =>
  .ioError "[Errno 28] No space left on device"

/-- A sample verse record carrying a translation payload. -/
def sampleRecord : VerseData := ⟨some "1:1", some sampleAyah, some sampleTransAyah⟩

/-- A sample verse record with no translation payload. -/
def sampleRecordNoTrans : VerseData := ⟨some "1:1", some sampleAyah, none⟩

/-! ## Helper lemmas: decimal rendering, stripping, the reference regex -/

theorem digitChar_facts : ∀ d, d < 10 →
    (Nat.digitChar d).isDigit = true ∧ (Nat.digitChar d).isWhitespace = false ∧
    Nat.digitChar d ≠ ':' ∧ (Nat.digitChar d).toNat - ('0').toNat = d := by
  decide

theorem chapter_verses_lookup : ∀ c, c ≤ 114 → 1 ≤ c →
    CHAPTER_VERSES c = some (verseCount c) ∧ verseCount c ≠ 0 := by
  decide

theorem digitsToNat_append_singleton (l : List Char) (c : Char) :
    digitsToNat (l ++ [c]) = digitsToNat l * 10 + (c.toNat - ('0').toNat) := by
  simp [digitsToNat, List.foldl_append]

theorem decimalDigitsAux_spec : ∀ fuel n, n < fuel →
    decimalDigitsAux fuel n ≠ [] ∧
    (∀ c ∈ decimalDigitsAux fuel n, ∃ d, d < 10 ∧ c = Nat.digitChar d) ∧
    digitsToNat (decimalDigitsAux fuel n) = n := by
  intro fuel
  induction fuel with
  | zero => intro n hn; omega
  | succ f ih =>
    intro n hn
    by_cases h10 : n < 10
    · refine ⟨by simp [decimalDigitsAux, h10], ?_, ?_⟩
      · intro c hc
        simp [decimalDigitsAux, h10] at hc
        exact ⟨n, h10, hc⟩
      · have hf := (digitChar_facts n h10).2.2.2
        simp only [] at hf
        simp [decimalDigitsAux, h10, digitsToNat]
        simpa using hf
    · have hdiv : n / 10 < f := by
        have h1 : n / 10 < n := Nat.div_lt_self (by omega) (by omega)
        omega
      obtain ⟨hne, hdig, hval⟩ := ih (n / 10) hdiv
      refine ⟨by simp [decimalDigitsAux, h10], ?_, ?_⟩
      · intro c hc
        simp only [decimalDigitsAux, if_neg h10, List.mem_append, List.mem_singleton] at hc
        rcases hc with hc | hc
        · exact hdig c hc
        · exact ⟨n % 10, Nat.mod_lt _ (by omega), hc⟩
      · have hf := (digitChar_facts (n % 10) (Nat.mod_lt _ (by omega))).2.2.2
        simp only [decimalDigitsAux, if_neg h10, digitsToNat_append_singleton, hval]
        simp at hf ⊢
        omega

theorem decimalDigits_spec (n : Nat) :
    decimalDigits n ≠ [] ∧
    (∀ c ∈ decimalDigits n, ∃ d, d < 10 ∧ c = Nat.digitChar d) ∧
    digitsToNat (decimalDigits n) = n :=
  decimalDigitsAux_spec (n+1) n (Nat.lt_succ_self n)

theorem dropWhile_eq_self_of_false {p : Char → Bool} :
    ∀ l : List Char, (∀ c ∈ l, p c = false) → l.dropWhile p = l := by
  intro l h
  cases l with
  | nil => rfl
  | cons a as => simp [List.dropWhile, h a (by simp)]

theorem pyStrip_eq_self (l : List Char) (h : ∀ c ∈ l, c.isWhitespace = false) :
    pyStrip l = l := by
  unfold pyStrip
  rw [dropWhile_eq_self_of_false l h,
      dropWhile_eq_self_of_false l.reverse (fun c hc => h c (List.mem_reverse.mp hc)),
      List.reverse_reverse]

theorem takeWhile_append_of_all {p : Char → Bool} :
    ∀ l : List Char, ∀ x r, (∀ c ∈ l, p c = true) → p x = false →
    (l ++ x :: r).takeWhile p = l ∧ (l ++ x :: r).dropWhile p = x :: r := by
  intro l
  induction l with
  | nil => intro x r _ hx; simp [List.takeWhile, List.dropWhile, hx]
  | cons a as ih =>
    intro x r h hx
    have ha : p a = true := h a (by simp)
    have := ih x r (fun c hc => h c (by simp [hc])) hx
    simp [List.takeWhile, List.dropWhile, ha, this.1, this.2]

theorem matchRefPattern_split (ds vs : List Char) (h1 : ds ≠ []) (h2 : vs ≠ [])
    (h3 : ∀ c ∈ ds, c.isDigit = true) (h4 : ∀ c ∈ vs, c.isDigit = true) :
    matchRefPattern (ds ++ ':' :: vs) = some (ds, vs) := by
  have hcolon : (':').isDigit = false := by decide
  obtain ⟨ht, hd⟩ := takeWhile_append_of_all ds ':' vs h3 hcolon
  simp only [matchRefPattern, ht, hd]
  simp [h1, h2, List.all_eq_true.mpr h4]

theorem decimalDigits_chars (n : Nat) :
    (∀ c ∈ decimalDigits n, c.isDigit = true) ∧
    (∀ c ∈ decimalDigits n, c.isWhitespace = false) ∧
    (∀ c ∈ decimalDigits n, c ≠ ':') := by
  obtain ⟨-, hdig, -⟩ := decimalDigits_spec n
  refine ⟨fun c hc => ?_, fun c hc => ?_, fun c hc => ?_⟩
  · obtain ⟨d, hd, rfl⟩ := hdig c hc
    exact (digitChar_facts d hd).1
  · obtain ⟨d, hd, rfl⟩ := hdig c hc
    exact (digitChar_facts d hd).2.1
  · obtain ⟨d, hd, rfl⟩ := hdig c hc
    exact (digitChar_facts d hd).2.2.1

/-! ## C1: in-range references validate successfully -/

/-- C1: for every chapter `c` in `[1,114]` and verse `v` in
`[1, CHAPTER_VERSES[c]]`, `validate_input "{c}:{v}"` succeeds and returns
the pair `(c, v)`. -/
theorem validate_input_ok (c v : Nat) (hc1 : 1 ≤ c) (hc2 : c ≤ 114)
    (hv1 : 1 ≤ v) (hv2 : v ≤ verseCount c) :
    validate_input (refString c v) = Except.ok (c, v) := by
  obtain ⟨hne_c, -, hval_c⟩ := decimalDigits_spec c
  obtain ⟨hne_v, -, hval_v⟩ := decimalDigits_spec v
  obtain ⟨hdig_c, hws_c, -⟩ := decimalDigits_chars c
  obtain ⟨hdig_v, hws_v, -⟩ := decimalDigits_chars v
  have hne : refString c v ≠ "" := by
    intro h
    have h2 : decimalDigits c ++ ':' :: decimalDigits v = ([] : List Char) :=
      congrArg String.data h
    simp at h2
  have hws : ∀ ch ∈ decimalDigits c ++ ':' :: decimalDigits v, ch.isWhitespace = false := by
    intro ch hch
    simp only [List.mem_append, List.mem_cons] at hch
    rcases hch with h | h | h
    · exact hws_c ch h
    · subst h; decide
    · exact hws_v ch h
  have hstrip : pyStrip (refString c v).data = decimalDigits c ++ ':' :: decimalDigits v :=
    pyStrip_eq_self _ hws
  have hmatch := matchRefPattern_split (decimalDigits c) (decimalDigits v)
    hne_c hne_v hdig_c hdig_v
  have hlook := chapter_verses_lookup c hc2 hc1
  simp only [validate_input, if_neg hne, hstrip, hmatch, hval_c, hval_v]
  rw [if_neg (show ¬(c < 1 ∨ 114 < c) by omega), hlook.1]
  split
  next heq => exact absurd heq (by simp)
  next mv heq =>
    cases Option.some.inj heq
    rw [if_neg hlook.2, if_neg (show ¬(v < 1 ∨ verseCount c < v) by omega)]

/-- Witness for C1 at the concrete reference 2:255. -/
theorem validate_input_ok_witness :
    1 ≤ 2 ∧ 2 ≤ 114 ∧ 1 ≤ 255 ∧ 255 ≤ verseCount 2 ∧
    validate_input (refString 2 255) = Except.ok (2, 255) :=
  ⟨by decide, by decide, by decide, by decide,
   validate_input_ok 2 255 (by decide) (by decide) (by decide) (by decide)⟩

/-! ## C3: non-matching input fails with a FormatError -/

/-- C3: every input whose stripped form does not match the
`digits:digits` shape fails with a FormatError — not a RangeError and not
a success — and no input of any other shape is accepted. -/
theorem validate_input_format_error (s : String)
    (h : matchRefPattern (pyStrip s.data) = none) :
    ∃ e, validate_input s = Except.error e ∧ e.isFormatError = true ∧
      e.isRangeError = false ∧ ∀ p, validate_input s ≠ Except.ok p := by
  by_cases hs : s = ""
  · subst hs
    exact ⟨.inputEmpty, rfl, rfl, rfl, by simp [validate_input]⟩
  · refine ⟨.invalidFormat, ?_, rfl, rfl, ?_⟩
    · simp [validate_input, hs, h]
    · intro p hp
      simp [validate_input, hs, h] at hp

/-- Witness for C3 at the concrete input `"1:2:3"` (an extra colon). -/
theorem validate_input_format_error_witness :
    matchRefPattern (pyStrip ("1:2:3").data) = none ∧
    (∃ e, validate_input "1:2:3" = Except.error e ∧ e.isFormatError = true ∧
      e.isRangeError = false ∧ ∀ p, validate_input "1:2:3" ≠ Except.ok p) :=
  ⟨by decide, validate_input_format_error "1:2:3" (by decide)⟩

/-! ## C4: out-of-range references fail with a RangeError -/

/-- C4: on well-formed `digits:digits` input, a chapter outside `[1,114]`
fails with a RangeError naming the violated bound, and an in-range chapter
with a verse outside `[1, CHAPTER_VERSES[chapter]]` fails with a RangeError
stating that chapter's actual verse count. -/
theorem validate_input_range_error (s : String) (cs vs : List Char)
    (h : matchRefPattern (pyStrip s.data) = some (cs, vs)) :
    ((digitsToNat cs < 1 ∨ 114 < digitsToNat cs) →
      validate_input s = Except.error (VError.chapterOutOfRange (digitsToNat cs)) ∧
      (VError.chapterOutOfRange (digitsToNat cs)).isRangeError = true ∧
      (VError.chapterOutOfRange (digitsToNat cs)).message =
        "Chapter number must be between 1 and 114. Got: " ++ natString (digitsToNat cs)) ∧
    (1 ≤ digitsToNat cs → digitsToNat cs ≤ 114 →
      (digitsToNat vs < 1 ∨ verseCount (digitsToNat cs) < digitsToNat vs) →
      validate_input s = Except.error (VError.verseOutOfRange (digitsToNat cs)
        (verseCount (digitsToNat cs)) (digitsToNat vs)) ∧
      (VError.verseOutOfRange (digitsToNat cs) (verseCount (digitsToNat cs))
        (digitsToNat vs)).isRangeError = true ∧
      (VError.verseOutOfRange (digitsToNat cs) (verseCount (digitsToNat cs))
          (digitsToNat vs)).message =
        "Chapter " ++ natString (digitsToNat cs) ++ " has " ++
        natString (verseCount (digitsToNat cs)) ++
        " verses. Verse number must be between 1 and " ++
        natString (verseCount (digitsToNat cs)) ++ ". Got: " ++
        natString (digitsToNat vs)) := by
  have hs : s ≠ "" := by
    intro he
    subst he
    simp [pyStrip, matchRefPattern] at h
  constructor
  · intro hc
    simp only [validate_input, if_neg hs, h]
    rw [if_pos (show digitsToNat cs < 1 ∨ 114 < digitsToNat cs by omega)]
    exact ⟨rfl, rfl, rfl⟩
  · intro hc1 hc2 hv
    have hlook := chapter_verses_lookup _ hc2 hc1
    simp only [validate_input, if_neg hs, h]
    rw [if_neg (show ¬(digitsToNat cs < 1 ∨ 114 < digitsToNat cs) by omega), hlook.1]
    split
    next heq => exact absurd heq (by simp)
    next mv heq =>
      cases Option.some.inj heq
      rw [if_neg hlook.2,
          if_pos (show digitsToNat vs < 1 ∨ verseCount (digitsToNat cs) < digitsToNat vs by omega)]
      exact ⟨rfl, rfl, rfl⟩

/-- Witness for C4 at the concrete inputs `"115:1"` (chapter out of range)
and `"1:8"` (verse out of range for chapter 1, which has 7 verses). -/
theorem validate_input_range_error_witness :
    validate_input "115:1" =
      Except.error (VError.chapterOutOfRange (digitsToNat ['1', '1', '5'])) ∧
    validate_input "1:8" = Except.error (VError.verseOutOfRange (digitsToNat ['1'])
      (verseCount (digitsToNat ['1'])) (digitsToNat ['8'])) :=
  ⟨((validate_input_range_error "115:1" ['1', '1', '5'] ['1'] (by decide)).1 (by decide)).1,
   ((validate_input_range_error "1:8" ['1'] ['8'] (by decide)).2
      (by decide) (by decide) (by decide)).1⟩

/-! ## C9: the chapter table is total and positive on [1,114] -/

/-- C9: the chapter table maps every chapter in `[1,114]` to a positive
verse count, so the `Unknown chapter` branch of `validate_input` is
unreachable: no input at all can produce that failure. -/
theorem chapter_table_total (c : Nat) (h1 : 1 ≤ c) (h2 : c ≤ 114) :
    (∃ n, CHAPTER_VERSES c = some n ∧ 1 ≤ n) ∧
    ∀ s v, validate_input s ≠ Except.error (VError.unknownChapter v) := by
  have hlook := chapter_verses_lookup c h2 h1
  refine ⟨⟨verseCount c, hlook.1, by omega⟩, ?_⟩
  intro s v
  by_cases hs : s = ""
  · subst hs
    simp [validate_input]
  · rcases hm : matchRefPattern (pyStrip s.data) with - | ⟨cs, vs⟩
    · simp [validate_input, hs, hm]
    · simp only [validate_input, if_neg hs, hm]
      by_cases hc : digitsToNat cs < 1 ∨ 114 < digitsToNat cs
      · rw [if_pos hc]
        simp
      · have hc1 : 1 ≤ digitsToNat cs := by omega
        have hc2 : digitsToNat cs ≤ 114 := by omega
        have hl := chapter_verses_lookup _ hc2 hc1
        rw [if_neg hc, hl.1]
        split
        next heq => exact absurd heq (by simp)
        next mv heq =>
          cases Option.some.inj heq
          rw [if_neg hl.2]
          split <;> simp

/-- Witness for C9 at the concrete chapter 5. -/
theorem chapter_table_total_witness :
    (∃ n, CHAPTER_VERSES 5 = some n ∧ 1 ≤ n) ∧
    ∀ s v, validate_input s ≠ Except.error (VError.unknownChapter v) :=
  chapter_table_total 5 (by decide) (by decide)

/-! ## C2: translation-fetch failure handling in `get_verse` -/

/-- C2 counterexample: the Arabic fetch succeeds and the translation fetch
fails (its response body is malformed JSON), yet `get_verse` raises a
`ValueError` instead of returning the Arabic-only record with a warning:
the inner `try` catches only `requests.RequestException`, so the
`JSONDecodeError` escapes to the outer handler. -/
theorem get_verse_badjson_translation_raises :
    netBadTransJson (arabicUrl 1 1) =
      ApiResult.payload (some 200) (some "OK") (some sampleAyah) ∧
    netBadTransJson (transUrl 1 1 "sahih") =
      ApiResult.badJson "Expecting value: line 1 column 1 (char 0)" ∧
    get_verse netBadTransJson 1 1 (some "sahih") =
      (Except.error (FetchError.valueError
        ("Invalid JSON response from API: Expecting value: line 1 column 1 (char 0)")),
       []) :=
  ⟨by decide, by decide, by decide⟩

/-- C2 (amended): when the Arabic fetch succeeds and the translation fetch
fails with a network-level `RequestException` or with a parsed envelope
whose code is not 200, `get_verse` returns the record with the Arabic data
and an absent translation, emits exactly one warning on the diagnostic
side channel, and does not raise.  (A malformed-JSON translation response
or a 200 envelope without a `data` key is instead fatal.) -/
theorem get_verse_translation_nonfatal (net : String → ApiResult) (c v : Nat)
    (tkey : String) (a : Ayah) (st : Option String)
    (hA : net (arabicUrl c v) = ApiResult.payload (some 200) st (some a))
    (hT : (∃ msg, net (transUrl c v tkey) = ApiResult.exn msg) ∨
          (∃ code st2 d, net (transUrl c v tkey) = ApiResult.payload code st2 d ∧
            code ≠ some 200)) :
    ∃ w, get_verse net c v (some tkey) =
      (Except.ok ⟨some (refString c v), some a, none⟩, [w]) := by
  rcases hT with ⟨msg, hm⟩ | ⟨code, st2, d, hm, hcode⟩
  · refine ⟨"Warning: Translation request failed: " ++ msg, ?_⟩
    simp only [get_verse, hA, hm]
    rw [if_neg (show ¬(some 200 ≠ some 200) by simp)]
  · refine ⟨"Warning: Could not fetch translation " ++ "'" ++ tkey ++ "'" ++
      ". Using Arabic only.", ?_⟩
    simp only [get_verse, hA, hm]
    rw [if_neg (show ¬(some 200 ≠ some 200) by simp), if_neg hcode]

/-- Witness for the amended C2: a 404 envelope on the translation of 1:1. -/
theorem get_verse_translation_nonfatal_witness :
    ∃ w, get_verse netTrans404 1 1 (some "sahih") =
      (Except.ok ⟨some (refString 1 1), some sampleAyah, none⟩, [w]) :=
  get_verse_translation_nonfatal netTrans404 1 1 "sahih" sampleAyah (some "OK")
    (by decide) (Or.inr ⟨some 404, some "Not Found", none, by decide, by decide⟩)

/-! ## C7: translation-key resolution -/

/-- C7: a supplied translation key is resolved through the catalog, and a
key not present in the catalog is passed through verbatim as the edition
identifier of the second request URL for the same reference. -/
theorem get_verse_translation_key_resolution (net : String → ApiResult)
    (c v : Nat) (tkey : String) (a ta : Ayah) (st st2 : Option String)
    (hA : net (arabicUrl c v) = ApiResult.payload (some 200) st (some a))
    (hNotIn : TRANSLATIONS.lookup tkey = none)
    (hT : net (BASE_URL ++ "/ayah/" ++ refString c v ++ "/" ++ tkey) =
      ApiResult.payload (some 200) st2 (some ta)) :
    (∀ k e, TRANSLATIONS.lookup k = some e → trans_edition k = e) ∧
    trans_edition tkey = tkey ∧
    get_verse net c v (some tkey) =
      (Except.ok ⟨some (refString c v), some a, some ta⟩, []) := by
  have hte : trans_edition tkey = tkey := by
    simp [trans_edition, hNotIn]
  refine ⟨fun k e hk => by simp [trans_edition, hk], hte, ?_⟩
  have hurl : transUrl c v tkey = BASE_URL ++ "/ayah/" ++ refString c v ++ "/" ++ tkey := by
    simp only [transUrl, hte]
  simp only [get_verse, hA, hurl, hT]
  rw [if_neg (show ¬(some 200 ≠ some 200) by simp)]
  simp

/-- Witness for C7 with the non-catalog key `custom.edition` at 1:1. -/
theorem get_verse_translation_key_resolution_witness :
    (∀ k e, TRANSLATIONS.lookup k = some e → trans_edition k = e) ∧
    trans_edition "custom.edition" = "custom.edition" ∧
    get_verse netCustomEdition 1 1 (some "custom.edition") =
      (Except.ok ⟨some (refString 1 1), some sampleAyah, some sampleTransAyah⟩, []) :=
  get_verse_translation_key_resolution netCustomEdition 1 1 "custom.edition"
    sampleAyah sampleTransAyah (some "OK") (some "OK")
    (by decide) (by decide) (by decide)

/-! ## Formatter lemmas -/

theorem ne_of_head (s t : String) (h : s.data.head? ≠ t.data.head?) : s ≠ t := by
  intro he
  subst he
  exact h rfl

theorem head_of_append (s t : String) (c : Char) (h : s.data.head? = some c) :
    (s ++ t).data.head? = some c := by
  rw [String.data_append, List.head?_append, h]
  rfl

theorem headerLine_head (vd : VerseData) : (headerLine vd).data.head? = some 'V' := by
  simp only [headerLine]
  exact head_of_append _ _ _ (by decide)

theorem headerLine_ne (vd : VerseData) (m : String)
    (hm : m.data.head? = some '\n') : headerLine vd ≠ m := by
  apply ne_of_head
  rw [headerLine_head vd, hm]
  decide

theorem arabic_section_heads (vd : VerseData) (fmt : String) :
    ∀ m ∈ arabic_section vd fmt,
      m = "\n Arabic Text:" ∨ m.data.head? = some '‏' ∨ m.data.head? = some ' ' := by
  intro m hm
  rcases h : vd.arabic with - | a
  · simp [arabic_section, h] at hm
  · simp only [arabic_section, h] at hm
    split at hm
    · rcases List.mem_append.mp hm with h1 | h1
      · rcases List.mem_cons.mp h1 with h2 | h2
        · exact Or.inl h2
        · rcases List.mem_singleton.mp h2 with rfl
          exact Or.inr (Or.inl (head_of_append _ _ _ (by decide)))
      · split at h1
        · rcases List.mem_singleton.mp h1 with rfl
          exact Or.inr (Or.inr (head_of_append _ _ _ (by decide)))
        · simp at h1
    · simp at hm

theorem location_section_heads (vd : VerseData) :
    ∀ m ∈ location_section vd, m = "\n Location:" ∨ m.data.head? = some ' ' := by
  intro m hm
  rcases h : vd.arabic with - | a
  · simp [location_section, h] at hm
  · simp only [location_section, h] at hm
    split at hm
    · rcases List.mem_append.mp hm with h1 | h1
      · rcases List.mem_append.mp h1 with h2 | h2
        · exact Or.inl (List.mem_singleton.mp h2)
        · split at h2
          · rcases List.mem_singleton.mp h2 with rfl
            exact Or.inr (head_of_append _ _ _ (by decide))
          · simp at h2
      · split at h1
        · rcases List.mem_singleton.mp h1 with rfl
          exact Or.inr (head_of_append _ _ _ (by decide))
        · simp at h1
    · simp at hm

theorem arabic_section_eq_nil (vd : VerseData) (fmt : String)
    (h1 : fmt ≠ "arabic") (h2 : fmt ≠ "both") : arabic_section vd fmt = [] := by
  rcases h : vd.arabic with - | a
  · simp [arabic_section, h]
  · simp only [arabic_section, h]
    rw [if_neg]
    rintro (hh | hh) <;> contradiction

theorem translation_section_eq_nil (vd : VerseData) (fmt : String)
    (h1 : fmt ≠ "translation") (h2 : fmt ≠ "both") :
    translation_section vd fmt = [] := by
  rcases h : vd.translation with - | t
  · simp [translation_section, h]
  · simp only [translation_section, h]
    rw [if_neg]
    rintro (hh | hh) <;> contradiction

theorem translation_section_eq_nil_of_none (vd : VerseData) (fmt : String)
    (h : vd.translation = none) : translation_section vd fmt = [] := by
  simp [translation_section, h]

theorem trans_marker_notin_lines (vd : VerseData) (fmt : String)
    (htr : translation_section vd fmt = []) :
    "\n English Translation:" ∉ format_verse_lines vd fmt := by
  intro hm
  simp only [format_verse_lines, htr, List.append_nil, List.mem_append,
    List.mem_cons, List.mem_singleton, List.not_mem_nil, or_false, or_assoc] at hm
  rcases hm with h | h | h | h | h | h
  · exact absurd h (by decide)
  · exact absurd h.symm (headerLine_ne vd _ (by decide))
  · exact absurd h (by decide)
  · rcases arabic_section_heads vd fmt _ h with h1 | h1 | h1
    · exact absurd h1 (by decide)
    · exact absurd h1 (by decide)
    · exact absurd h1 (by decide)
  · rcases location_section_heads vd _ h with h1 | h1
    · exact absurd h1 (by decide)
    · exact absurd h1 (by decide)
  · exact absurd h (by decide)

theorem arabic_marker_notin_lines (vd : VerseData) (fmt : String)
    (har : arabic_section vd fmt = [])
    (htr : translation_section vd fmt = []) :
    "\n Arabic Text:" ∉ format_verse_lines vd fmt := by
  intro hm
  simp only [format_verse_lines, har, htr, List.append_nil, List.nil_append,
    List.mem_append, List.mem_cons, List.mem_singleton, List.not_mem_nil,
    or_false, or_assoc] at hm
  rcases hm with h | h | h | h | h
  · exact absurd h (by decide)
  · exact absurd h.symm (headerLine_ne vd _ (by decide))
  · exact absurd h (by decide)
  · rcases location_section_heads vd _ h with h1 | h1
    · exact absurd h1 (by decide)
    · exact absurd h1 (by decide)
  · exact absurd h (by decide)

/-! ## C5: translation section never appears in mode "arabic", nor without data -/

/-- C5: formatting with mode `"arabic"` never includes the translation
section even when translation data is present in the record, and formatting
with mode `"translation"` on a record with no translation data omits the
translation section and still produces the bordered block (it does not
fail). -/
theorem format_verse_translation_rules (vd : VerseData) :
    "\n English Translation:" ∉ format_verse_lines vd "arabic" ∧
    (vd.translation = none →
      "\n English Translation:" ∉ format_verse_lines vd "translation" ∧
      headerLine vd ∈ format_verse_lines vd "translation") := by
  refine ⟨trans_marker_notin_lines vd "arabic"
    (translation_section_eq_nil vd "arabic" (by decide) (by decide)),
    fun htr => ⟨trans_marker_notin_lines vd "translation"
      (translation_section_eq_nil_of_none vd "translation" htr), ?_⟩⟩
  simp [format_verse_lines]

/-- Witness for C5 on the concrete record for 1:1 with no translation. -/
theorem format_verse_translation_rules_witness :
    "\n English Translation:" ∉ format_verse_lines sampleRecordNoTrans "translation" ∧
    headerLine sampleRecordNoTrans ∈ format_verse_lines sampleRecordNoTrans "translation" :=
  (format_verse_translation_rules sampleRecordNoTrans).2 rfl

/-! ## C10: an unknown mode yields header and location only -/

/-- C10: for every mode string outside `{arabic, translation, both}`,
`format_verse` does not fail and returns a block containing the header
(and location section when present) but neither an Arabic-text section nor
a translation section. -/
theorem format_verse_unknown_mode (vd : VerseData) (fmt : String)
    (h1 : fmt ≠ "arabic") (h2 : fmt ≠ "translation") (h3 : fmt ≠ "both") :
    headerLine vd ∈ format_verse_lines vd fmt ∧
    "\n Arabic Text:" ∉ format_verse_lines vd fmt ∧
    "\n English Translation:" ∉ format_verse_lines vd fmt ∧
    (location_section vd ≠ [] → "\n Location:" ∈ format_verse_lines vd fmt) := by
  have har := arabic_section_eq_nil vd fmt h1 h3
  have htr := translation_section_eq_nil vd fmt h2 h3
  refine ⟨by simp [format_verse_lines], arabic_marker_notin_lines vd fmt har htr,
    trans_marker_notin_lines vd fmt htr, fun hloc => ?_⟩
  have hmem : "\n Location:" ∈ location_section vd := by
    rcases h : vd.arabic with - | a
    · simp [location_section, h] at hloc
    · by_cases hc : truthyNat a.juz ∨ truthyNat a.page
      · simp [location_section, h, hc]
      · simp [location_section, h, hc] at hloc
  simp [format_verse_lines, List.mem_append, hmem]

/-- Witness for C10 on the concrete 1:1 record with the mode `"plain"`. -/
theorem format_verse_unknown_mode_witness :
    headerLine sampleRecord ∈ format_verse_lines sampleRecord "plain" ∧
    "\n Arabic Text:" ∉ format_verse_lines sampleRecord "plain" ∧
    "\n English Translation:" ∉ format_verse_lines sampleRecord "plain" ∧
    (location_section sampleRecord ≠ [] →
      "\n Location:" ∈ format_verse_lines sampleRecord "plain") :=
  format_verse_unknown_mode sampleRecord "plain" (by decide) (by decide) (by decide)

/-! ## C8: `save_to_file` reports success exactly when the write succeeds -/

/-- C8: `save_to_file` returns `true` exactly when the UTF-8 write of the
full content succeeds; on a write failure it reports the error to the
diagnostic stream and returns `false` without raising. -/
theorem save_to_file_spec (fs : String → String → WriteOutcome)
    (content filename : String) :
    ((save_to_file fs content filename).1 = true ↔ fs filename content = .ok) ∧
    (∀ msg, fs filename content = .ioError msg →
      save_to_file fs content filename =
        (false, ["Error saving to file " ++ "'" ++ filename ++ "'" ++ ": " ++ msg])) := by
  constructor
  · cases h : fs filename content <;> simp [save_to_file, h]
  · intro msg h
    simp [save_to_file, h]

/-- Witness for C8: a full disk fails the write, an intact one succeeds. -/
theorem save_to_file_spec_witness :
    save_to_file fsFull "content" "out.txt" =
      (false, ["Error saving to file " ++ "'" ++ "out.txt" ++ "'" ++ ": " ++
        "[Errno 28] No space left on device"]) ∧
    (save_to_file fsOk "content" "out.txt").1 = true :=
  ⟨(save_to_file_spec fsFull "content" "out.txt").2
      "[Errno 28] No space left on device" rfl,
   (save_to_file_spec fsOk "content" "out.txt").1.mpr rfl⟩

/-! ## C6: one-shot exit codes -/

/-- C6 counterexample: with an absent reference and no other directive —
whether the verse argument is missing altogether or supplied as the empty
string, since `if not args.verse` is a falsy test — `main` reaches
`parser.error`, which exits with status 2, not 1 as the claim states for
the usage error. -/
theorem main_usage_error_exit_code :
    (main netDown fsOk ⟨none, "sahih", "both", none, false, false⟩).exitCode = 2 ∧
    (main netDown fsOk ⟨none, "sahih", "both", none, false, false⟩).exitCode ≠ 1 ∧
    (main netDown fsOk ⟨some "", "sahih", "both", none, false, false⟩).exitCode = 2 ∧
    (main netDown fsOk ⟨some "", "sahih", "both", none, false, false⟩).exitCode ≠ 1 :=
  ⟨rfl, by decide, by decide, by decide⟩

/-- C6 (amended): in one-shot mode the process exits with status 0 on
success and with status 1 on every validation failure, fetch failure
(network, API-reported, unexpected), cancellation, and file-save failure,
after printing a category-labeled message to the diagnostic stream — but
the usage error of an absent reference — the verse argument missing or
equal to the empty string, per the falsy test `if not args.verse` — with
no other directive exits with argparse's status 2 instead of 1. -/
theorem main_exit_codes (net : String → ApiResult)
    (fs : String → String → WriteOutcome) (args : Args)
    (hl : args.list_translations = false) (hi : args.interactive = false) :
    (args.verse = none ∨ args.verse = some "" →
      main net fs args = ⟨2, [usageErrorLine]⟩) ∧
    (∀ vstr e, args.verse = some vstr → vstr ≠ "" →
      validate_input vstr = .error e →
      main net fs args =
        ⟨1, ["Input Error: " ++ e.message, "Use --help for usage information."]⟩) ∧
    (∀ vstr c v, args.verse = some vstr → validate_input vstr = .ok (c, v) →
      (∀ msg warns,
        get_verse net c v (args_translation args) = (.error (.requestException msg), warns) →
        (main net fs args).exitCode = 1 ∧
        "Network Error: " ++ msg ∈ (main net fs args).stderr) ∧
      (∀ msg warns,
        get_verse net c v (args_translation args) = (.error (.valueError msg), warns) →
        (main net fs args).exitCode = 1 ∧
        "Input Error: " ++ msg ∈ (main net fs args).stderr) ∧
      (∀ k warns,
        get_verse net c v (args_translation args) = (.error (.keyError k), warns) →
        (main net fs args).exitCode = 1 ∧
        "Unexpected Error: " ++ "'" ++ k ++ "'" ∈ (main net fs args).stderr) ∧
      (∀ warns,
        get_verse net c v (args_translation args) = (.error .interrupt, warns) →
        (main net fs args).exitCode = 1 ∧
        "\nOperation cancelled by user." ∈ (main net fs args).stderr) ∧
      (∀ vd warns,
        get_verse net c v (args_translation args) = (.ok vd, warns) →
        (args.output = none → (main net fs args).exitCode = 0) ∧
        (∀ path, args.output = some path →
          (fs path (format_verse vd args.format) = .ok →
            (main net fs args).exitCode = 0) ∧
          (∀ msg, fs path (format_verse vd args.format) = .ioError msg →
            (main net fs args).exitCode = 1 ∧
            "Error saving to file " ++ "'" ++ path ++ "'" ++ ": " ++ msg ∈
              (main net fs args).stderr)))) := by
  refine ⟨?_, ?_, ?_⟩
  · rintro (hv | hv) <;> simp [main, hl, hi, hv]
  · intro vstr e hv hne hval
    simp [main, hl, hi, hv, hne, hval]
  · intro vstr c v hv hval
    have hne : vstr ≠ "" := by
      intro he
      rw [he] at hval
      simp [validate_input] at hval
    refine ⟨?_, ?_, ?_, ?_, ?_⟩
    · intro msg warns hfetch
      constructor <;> simp [main, hl, hi, hv, hne, hval, hfetch]
    · intro msg warns hfetch
      constructor <;> simp [main, hl, hi, hv, hne, hval, hfetch]
    · intro k warns hfetch
      constructor <;> simp [main, hl, hi, hv, hne, hval, hfetch]
    · intro warns hfetch
      constructor <;> simp [main, hl, hi, hv, hne, hval, hfetch]
    · intro vd warns hfetch
      constructor
      · intro hout
        simp [main, hl, hi, hv, hne, hval, hfetch, hout]
      · intro path hout
        constructor
        · intro hfs
          simp [main, hl, hi, hv, hne, hval, hfetch, hout, save_to_file, hfs]
        · intro msg hfs
          constructor <;>
            simp [main, hl, hi, hv, hne, hval, hfetch, hout, save_to_file, hfs]

/-- Witness for the amended C6: a chapter-out-of-range reference exits with
status 1 and an `Input Error` label. -/
theorem main_exit_codes_witness :
    main netDown fsOk ⟨some "300:1", "sahih", "both", none, false, false⟩ =
      ⟨1, ["Input Error: " ++ (VError.chapterOutOfRange 300).message,
           "Use --help for usage information."]⟩ :=
  (main_exit_codes netDown fsOk ⟨some "300:1", "sahih", "both", none, false, false⟩
    rfl rfl).2.1 "300:1" (VError.chapterOutOfRange 300) rfl (by decide) (by decide)

end QuranFetcher
